import Mathlib

/-!
Shallow embedding of the core game logic of the TextFileProcessor repository
(a browser 2D platformer used as an interactive introduction).

Sources embedded:
- `src/client/src/lib/levels.ts` — static level data (platforms, collectibles);
- `src/client/src/lib/stores/useGameState.tsx` — the session store
  (phase / score / collectedItems / currentMessage / playerPosition / cameraOffset
  and its actions start, restart, end, collectItem, ...);
- `src/client/src/lib/gameEngine.ts` — the per-frame engine
  (input handling, gravity/integration, platform collision resolution,
  collectible pickup loop, particles, camera follow, win check, fall respawn).

JavaScript numbers are modelled as exact rationals (ℚ); the random draws used
only for particle cosmetics are abstracted into an `Oracle` parameter.
-/

namespace Platformer

/-- Facing direction of the player (source: `direction: 'left' | 'right'`). -/
inductive Dir where
  | left
  | right
deriving DecidableEq, Repr

/-- Game phase (source: `type GamePhase = "ready" | "playing" | "ended"`). -/
inductive GamePhase where
  | ready
  | playing
  | ended
deriving DecidableEq, Repr

/-- Platform kind (source: `type: 'ground' | 'platform' | 'castle' | 'tree'`). -/
inductive PlatformType where
  | ground
  | platform
  | castle
  | tree
deriving DecidableEq, Repr, BEq

/-- Collectible category (source: `type: 'personality' | 'hobby' | 'background' | 'skill'`). -/
inductive CollectibleType where
  | personality
  | hobby
  | background
  | skill
deriving DecidableEq, Repr

/-- The player record of `gameEngine.ts` (interface `Player`). -/
structure PlayerP where
  x : ℚ
  y : ℚ
  width : ℚ
  height : ℚ
  velocityX : ℚ
  velocityY : ℚ
  onGround : Bool
  direction : Dir
deriving DecidableEq, Repr

/-- A platform rectangle of `levels.ts` (interface `Platform`). -/
structure Platform where
  x : ℚ
  y : ℚ
  width : ℚ
  height : ℚ
  type : PlatformType
deriving DecidableEq, Repr

/-- A collectible of `levels.ts` (interface `CollectibleItem`). -/
structure CollectibleItem where
  id : String
  x : ℚ
  y : ℚ
  width : ℚ
  height : ℚ
  type : CollectibleType
  title : String
  message : String
  points : ℕ
deriving DecidableEq, Repr

/-- A visual particle of `gameEngine.ts` (interface `Particle`). -/
structure Particle where
  x : ℚ
  y : ℚ
  vx : ℚ
  vy : ℚ
  life : ℤ
  maxLife : ℤ
  color : String
  size : ℚ
deriving DecidableEq, Repr

/-- An axis-aligned rectangle; `checkCollision` in the source is duck-typed
over any object with `x`, `y`, `width`, `height`. -/
structure Rect where
  x : ℚ
  y : ℚ
  width : ℚ
  height : ℚ
deriving DecidableEq, Repr

def playerRect (p : PlayerP) : Rect := ⟨p.x, p.y, p.width, p.height⟩

def platformRect (p : Platform) : Rect := ⟨p.x, p.y, p.width, p.height⟩

def collectibleRect (c : CollectibleItem) : Rect := ⟨c.x, c.y, c.width, c.height⟩

/-- Source `GameEngine.checkCollision` (gameEngine.ts lines 829-834): strict AABB overlap. -/
def checkCollision (r1 r2 : Rect) : Bool :=
  decide (r1.x < r2.x + r2.width) &&
  decide (r1.x + r1.width > r2.x) &&
  decide (r1.y < r2.y + r2.height) &&
  decide (r1.y + r1.height > r2.y)

/-- Engine constant `gravity = 0.8` (gameEngine.ts line 44). -/
def gravity : ℚ := 8/10

/-- Engine constant `jumpPower = -15` (gameEngine.ts line 45). -/
def jumpPower : ℚ := -15

/-- Engine constant `speed = 5` (gameEngine.ts line 46). -/
def speed : ℚ := 5

/-- World width used by the camera clamp, hard-coded `2000` (gameEngine.ts line 189). -/
def worldWidth : ℚ := 2000

/-- The session store of `useGameState.tsx`. -/
structure GameStateS where
  phase : GamePhase
  score : ℕ
  collectedItems : List CollectibleItem
  currentMessage : Option String
  playerPosition : ℚ × ℚ
  cameraOffset : ℚ
deriving DecidableEq, Repr

/-- The initial store state (useGameState.tsx lines 35-40). -/
def initialGameState : GameStateS :=
  { phase := GamePhase.ready
    score := 0
    collectedItems := []
    currentMessage := none
    playerPosition := (100, 400)
    cameraOffset := 0 }

/-- Store action `start` (useGameState.tsx lines 42-49). -/
def startGame (s : GameStateS) : GameStateS :=
  if s.phase = GamePhase.ready then { s with phase := GamePhase.playing } else s

/-- Store action `restart` (useGameState.tsx lines 51-60): replaces every field
with its initial value. -/
def restartStore (_s : GameStateS) : GameStateS :=
  { phase := GamePhase.ready
    score := 0
    collectedItems := []
    currentMessage := none
    playerPosition := (100, 400)
    cameraOffset := 0 }

/-- Store action `end` (useGameState.tsx lines 62-69). -/
def endGame (s : GameStateS) : GameStateS :=
  if s.phase = GamePhase.playing then { s with phase := GamePhase.ended } else s

/-- Store action `collectItem` (useGameState.tsx lines 75-91), synchronous part:
if the item's id is already among the collected ids nothing changes, otherwise
the item is appended, its points added to the score and its message shown.
(The 4-second delayed message clear is a wall-clock timer, outside this model.) -/
def collectItem (s : GameStateS) (item : CollectibleItem) : GameStateS :=
  if s.collectedItems.any (fun collected => collected.id == item.id) then s
  else
    { s with
      collectedItems := s.collectedItems ++ [item]
      score := s.score + item.points
      currentMessage := some item.message }

/-- The platform table of `levels.ts` (lines 27-43). -/
def levelPlatforms : List Platform :=
  [ { x := 0, y := 550, width := 300, height := 50, type := PlatformType.ground }
  , { x := 400, y := 500, width := 200, height := 20, type := PlatformType.platform }
  , { x := 700, y := 450, width := 150, height := 20, type := PlatformType.platform }
  , { x := 950, y := 400, width := 200, height := 20, type := PlatformType.platform }
  , { x := 1250, y := 350, width := 150, height := 20, type := PlatformType.platform }
  , { x := 1500, y := 300, width := 250, height := 100, type := PlatformType.castle }
  , { x := 1850, y := 450, width := 100, height := 80, type := PlatformType.tree }
  , { x := 2000, y := 550, width := 200, height := 50, type := PlatformType.ground }
  , { x := 300, y := 400, width := 80, height := 15, type := PlatformType.platform }
  , { x := 600, y := 350, width := 80, height := 15, type := PlatformType.platform }
  , { x := 1100, y := 250, width := 100, height := 15, type := PlatformType.platform }
  , { x := 1800, y := 200, width := 120, height := 15, type := PlatformType.platform } ]

/-- The collectible table of `levels.ts` (lines 45-149); titles and messages
are verbatim from the source. -/
def levelCollectibles : List CollectibleItem :=
  [ { id := "extroverted", x := 320, y := 350, width := 20, height := 20
    , type := CollectibleType.personality, title := "Extroverted Nature"
    , message := "🎉 I'm extroverted and love social events! I'm always up for a good time and enjoy meeting new people from different backgrounds.", points := 100 }
  , { id := "openminded", x := 620, y := 300, width := 20, height := 20
    , type := CollectibleType.personality, title := "Open-Minded"
    , message := "🌍 I'm open-minded and always excited to try new things! Whether it's board games or dancing at parties, I'm in!", points := 100 }
  , { id := "respectful", x := 970, y := 350, width := 20, height := 20
    , type := CollectibleType.personality, title := "Respectful Living"
    , message := "🤝 I deeply value respect and cleanliness in shared spaces. Good sleep is sacred, especially during uni grind!", points := 100 }
  , { id := "romanian", x := 120, y := 500, width := 20, height := 20
    , type := CollectibleType.background, title := "Romanian Heritage"
    , message := "🇷🇴 I'm from Romania (hence the Transylvania theme!). I bring rich cultural experiences and amazing traditional recipes!", points := 150 }
  , { id := "usa_experience", x := 1120, y := 200, width := 20, height := 20
    , type := CollectibleType.background, title := "USA University Experience"
    , message := "🇺🇸 I spent a year studying in the USA with shared dorms and roommates. I know how to navigate communal living successfully!", points := 150 }
  , { id := "bit_student", x := 1520, y := 250, width := 20, height := 20
    , type := CollectibleType.background, title := "BIT Student at UT"
    , message := "🎓 I'm a first-year Business Information Technology student at University of Twente. Ready to dive into Dutch student life!", points := 150 }
  , { id := "cooking", x := 720, y := 400, width := 20, height := 20
    , type := CollectibleType.skill, title := "Amazing Cook"
    , message := "👨‍🍳 I can REALLY cook! Amazing pizza from scratch, pastries, and the best Romanian BBQ you'll ever taste. Ready to share!", points := 200 }
  , { id := "gym", x := 1270, y := 300, width := 20, height := 20
    , type := CollectibleType.hobby, title := "Gym Enthusiast"
    , message := "💪 I love going to the gym and staying active! Great way to stay healthy during the study grind.", points := 100 }
  , { id := "debates", x := 1820, y := 150, width := 20, height := 20
    , type := CollectibleType.hobby, title := "Love Good Debates"
    , message := "🗣️ I'm a huge fan of respectful debates and deep discussions. Love exchanging ideas over drinks or late-night kitchen chats!", points := 100 }
  , { id := "routine", x := 420, y := 450, width := 20, height := 20
    , type := CollectibleType.personality, title := "Good Routines"
    , message := "⏰ I keep solid routines and believe in the importance of good sleep. I balance social fun with responsible study habits!", points := 100 }
  , { id := "social_balance", x := 1870, y := 400, width := 20, height := 20
    , type := CollectibleType.personality, title := "Social Balance"
    , message := "⚖️ I know how to balance fun social times with quiet study periods. Respect for everyone's needs is key!", points := 100 }
  , { id := "cultural_exchange", x := 2100, y := 500, width := 20, height := 20
    , type := CollectibleType.background, title := "Cultural Bridge"
    , message := "🌉 Having lived in Romania and the USA, I love being a cultural bridge and sharing different perspectives with housemates!", points := 150 } ]

/-- The ids collected so far, in pickup order. -/
def collectedIds (s : GameStateS) : List String :=
  s.collectedItems.map CollectibleItem.id

/-- Folding a sequence of pickups over the store (one `collectItem` per pickup,
in sequence order, as the engine's per-frame loop produces them). -/
def collectAll (s : GameStateS) (items : List CollectibleItem) : GameStateS :=
  items.foldl collectItem s

/-- The mutable engine state of `GameEngine` (gameEngine.ts lines 36-50),
restricted to the gameplay-relevant fields; `canvas.width`/`canvas.height`
appear as explicit fields since the engine reads them. -/
structure EngineState where
  player : PlayerP
  platforms : List Platform
  collectibles : List CollectibleItem
  keys : List String
  cameraX : ℚ
  backgroundOffset : ℚ
  particles : List Particle
  dustParticles : List Particle
  canvasWidth : ℚ
  canvasHeight : ℚ
deriving DecidableEq, Repr

/-- The player initialised by the constructor (gameEngine.ts lines 59-68). -/
def spawnPlayer : PlayerP :=
  { x := 100, y := 400, width := 32, height := 48
    velocityX := 0, velocityY := 0, onGround := false, direction := Dir.right }

/-- The `GameEngine` constructor (gameEngine.ts lines 52-73): spawn player,
copy the level tables, empty key set and particle lists, camera at 0. -/
def initEngine (canvasW canvasH : ℚ) : EngineState :=
  { player := spawnPlayer
    platforms := levelPlatforms
    collectibles := levelCollectibles
    keys := []
    cameraX := 0
    backgroundOffset := 0
    particles := []
    dustParticles := []
    canvasWidth := canvasW
    canvasHeight := canvasH }

/-- Source `GameEngine.handleTouch` (gameEngine.ts lines 83-102): top half attempts a
jump (only if grounded); otherwise left third moves left, right third moves
right; anything else is ignored. -/
def handleTouch (x y canvasWidth canvasHeight : ℚ) (p : PlayerP) : PlayerP :=
  let leftSide := x < canvasWidth / 3
  let rightSide := x > canvasWidth * 2 / 3
  let topSide := y < canvasHeight / 2
  if topSide then
    if p.onGround then { p with velocityY := jumpPower, onGround := false } else p
  else if leftSide then { p with velocityX := -speed, direction := Dir.left }
  else if rightSide then { p with velocityX := speed, direction := Dir.right }
  else p

/-- The input block of `GameEngine.update` (gameEngine.ts lines 108-122):
horizontal velocity is reset, then the left and right key groups are checked
in two separate `if`s (right wins when both are held), and the jump keys set
the jump impulse only when grounded. -/
def applyInput (keys : List String) (p0 : PlayerP) : PlayerP :=
  let p1 := { p0 with velocityX := 0 }
  let p2 := if keys.contains "ArrowLeft" || keys.contains "KeyA" then
    { p1 with velocityX := -speed, direction := Dir.left } else p1
  let p3 := if keys.contains "ArrowRight" || keys.contains "KeyD" then
    { p2 with velocityX := speed, direction := Dir.right } else p2
  if (keys.contains "Space" || keys.contains "ArrowUp" || keys.contains "KeyW")
      && p3.onGround then
    { p3 with velocityY := jumpPower, onGround := false }
  else p3

/-- Gravity and integration (gameEngine.ts lines 124-129): `velocityY += gravity`,
then `x += velocityX; y += velocityY`. -/
def integrate (p : PlayerP) : PlayerP :=
  let p1 := { p with velocityY := p.velocityY + gravity }
  { p1 with x := p1.x + p1.velocityX, y := p1.y + p1.velocityY }

/-- The body of the platform-collision loop (gameEngine.ts lines 134-157):
on overlap, first the landing rule, else the ceiling rule, else the side push
(direction by the sign of the horizontal velocity), else nothing. -/
def resolvePlatform (p : PlayerP) (plat : Platform) : PlayerP :=
  if checkCollision (playerRect p) (platformRect plat) then
    if 0 < p.velocityY ∧ p.y < plat.y then
      { p with y := plat.y - p.height, velocityY := 0, onGround := true }
    else if p.velocityY < 0 ∧ plat.y < p.y then
      { p with y := plat.y + plat.height, velocityY := 0 }
    else if p.velocityX ≠ 0 then
      if 0 < p.velocityX then { p with x := plat.x - p.width, velocityX := 0 }
      else { p with x := plat.x + plat.width, velocityX := 0 }
    else p
  else p

/-- The platform loop (gameEngine.ts lines 134-157) iterates over the platform
list in order, mutating the player. -/
def resolveCollisions (p : PlayerP) (plats : List Platform) : PlayerP :=
  plats.foldl resolvePlatform p

/-- The random draws of a frame, abstracted: `Math.random()` only feeds the
cosmetic particle constructors (gameEngine.ts lines 862-888) and the dust-spawn
coin flip (line 178). `spawnCollect cx cy` stands for `createCollectionParticles`,
`spawnDust x y` for the conditional `createDustParticle` (empty when the draw
fails or to model any draw sequence). -/
structure Oracle where
  spawnCollect : ℚ → ℚ → List Particle
  spawnDust : ℚ → ℚ → List Particle

/-- The collectible loop (gameEngine.ts lines 160-174): iterates from the last
index down to 0; every collectible overlapping the player spawns a particle
burst, is handed to the store's `collectItem`, and is removed from the active
list. Returns (remaining collectibles, store state, particles spawned). -/
def collectLoop (pr : Rect) (o : Oracle) :
    List CollectibleItem → GameStateS → List CollectibleItem × GameStateS × List Particle
  | [], g => ([], g, [])
  | c :: rest, g =>
    let r := collectLoop pr o rest g
    if checkCollision pr (collectibleRect c) then
      (r.1, collectItem r.2.1 c,
        r.2.2 ++ o.spawnCollect (c.x + c.width / 2) (c.y + c.height / 2))
    else
      (c :: r.1, r.2.1, r.2.2)

/-- One step of a collection particle (gameEngine.ts lines 892-897). -/
def stepCollectionParticle (p : Particle) : Particle :=
  { p with x := p.x + p.vx, y := p.y + p.vy, vy := p.vy + 2/10, life := p.life - 1 }

/-- One step of a dust particle (gameEngine.ts lines 905-911). -/
def stepDustParticle (p : Particle) : Particle :=
  { p with
    x := p.x + p.vx
    y := p.y + p.vy
    vx := p.vx * (98/100)
    vy := p.vy * (98/100)
    life := p.life - 1 }

/-- Source `updateParticles` on the collection list (gameEngine.ts lines 891-902):
step every particle, drop the dead ones. -/
def updateCollectionParticles (ps : List Particle) : List Particle :=
  (ps.map stepCollectionParticle).filter (fun p => decide (0 < p.life))

/-- Source `updateParticles` on the dust list (gameEngine.ts lines 904-916). -/
def updateDustParticles (ps : List Particle) : List Particle :=
  (ps.map stepDustParticle).filter (fun p => decide (0 < p.life))

/-- The camera update (gameEngine.ts lines 186-189): move the offset a tenth of
the way toward `targetX`, then clamp to `[0, worldWidth - canvasWidth]`. -/
def cameraStep (cameraX targetX canvasWidth : ℚ) : ℚ :=
  let c := cameraX + (targetX - cameraX) * (1/10)
  max 0 (min c (worldWidth - canvasWidth))

/-- The final-castle search of the win check (gameEngine.ts line 199):
`platforms.find(p => p.type === 'castle' && p.x > 2800)`. -/
def isFinalCastle (p : Platform) : Bool :=
  p.type == PlatformType.castle && decide (p.x > 2800)

def findFinalCastle (ps : List Platform) : Option Platform :=
  ps.find? isFinalCastle

/-- The win check (gameEngine.ts lines 198-204): if a final castle exists and
the player overlaps it, the store's `end` transition is triggered (the source
delays the call by a 1-second timer; the delay is collapsed here since only
whether the transition ever fires matters to the embedded properties). -/
def winStep (platforms : List Platform) (pl : PlayerP) (g : GameStateS) : GameStateS :=
  match findFinalCastle platforms with
  | some c => if checkCollision (playerRect pl) (platformRect c) then endGame g else g
  | none => g

/-- The fall-off-the-world respawn (gameEngine.ts lines 206-212). -/
def fallRespawn (canvasHeight : ℚ) (p : PlayerP) : PlayerP :=
  if p.y > canvasHeight + 100 then
    { p with x := 100, y := 400, velocityX := 0, velocityY := 0 }
  else p

/-- Source `GameEngine.update` (gameEngine.ts lines 104-213), in source order:
phase guard, input, gravity + integration, `onGround := false`, platform loop,
collectible loop, dust spawn, particle stepping, camera follow and parallax
offset, store position/camera sync, win check, fall respawn. -/
def update (o : Oracle) (e : EngineState) (g : GameStateS) : EngineState × GameStateS :=
  if g.phase = GamePhase.playing then
    let pl1 := applyInput e.keys e.player
    let pl2 := integrate pl1
    let pl3 := { pl2 with onGround := false }
    let pl4 := resolveCollisions pl3 e.platforms
    let col := collectLoop (playerRect pl4) o e.collectibles g
    let dust := if pl4.velocityX ≠ 0 ∧ pl4.onGround then
      o.spawnDust (pl4.x + pl4.width / 2) (pl4.y + pl4.height) else []
    let particles := updateCollectionParticles (e.particles ++ col.2.2)
    let dustParticles := updateDustParticles (e.dustParticles ++ dust)
    let cameraX := cameraStep e.cameraX (pl4.x - e.canvasWidth / 2) e.canvasWidth
    let backgroundOffset := cameraX * (3/10)
    let g1 := { col.2.1 with playerPosition := (pl4.x, pl4.y), cameraOffset := cameraX }
    let g2 := winStep e.platforms pl4 g1
    let pl5 := fallRespawn e.canvasHeight pl4
    ({ e with
        player := pl5
        collectibles := col.1
        particles := particles
        dustParticles := dustParticles
        cameraX := cameraX
        backgroundOffset := backgroundOffset }, g2)
  else (e, g)

/-- One free-fall tick of the vertical velocity, the `velocityY`-component of
`integrate` (gameEngine.ts line 125): `velocityY += gravity`. -/
def gravityTick (vy : ℚ) : ℚ := vy + gravity

/-- Vertical velocity `n` ticks after a jump: the jump sets `velocityY` to
`jumpPower` (gameEngine.ts line 120) and every subsequent engine tick - the
jump frame included - adds `gravity` before integrating. -/
def vyAfterTicks (n : ℕ) : ℚ := gravityTick^[n] jumpPower

/-- The restart of a whole session. `restart` in the store (useGameState.tsx
lines 51-60) resets every store field; the phase change re-runs the
`GameCanvas` effect (GameCanvas.tsx lines 22-95, keyed on `gameLoop` which is
keyed on `phase`), whose body constructs a fresh `GameEngine` on the same
canvas (line 46), regenerating player, camera and the active collectible set
from the level tables. -/
def restartSession (s : GameStateS × EngineState) : GameStateS × EngineState :=
  (restartStore s.1, initEngine s.2.canvasWidth s.2.canvasHeight)

/-- Horizontal overlap depth of two overlapping rectangles (the spec's
"overlap depth" on the x axis): the width of the intersection interval. -/
def overlapDepthX (r1 r2 : Rect) : ℚ :=
  min (r1.x + r1.width) (r2.x + r2.width) - max r1.x r2.x

/-- Vertical overlap depth of two overlapping rectangles. -/
def overlapDepthY (r1 r2 : Rect) : ℚ :=
  min (r1.y + r1.height) (r2.y + r2.height) - max r1.y r2.y

/-! ## Helper lemmas -/

theorem checkCollision_eq_true_iff (r1 r2 : Rect) :
    checkCollision r1 r2 = true ↔
      r1.x < r2.x + r2.width ∧ r1.x + r1.width > r2.x ∧
      r1.y < r2.y + r2.height ∧ r1.y + r1.height > r2.y := by
  simp [checkCollision, and_assoc]

theorem checkCollision_eq_false_iff (r1 r2 : Rect) :
    checkCollision r1 r2 = false ↔
      ¬(r1.x < r2.x + r2.width ∧ r1.x + r1.width > r2.x ∧
        r1.y < r2.y + r2.height ∧ r1.y + r1.height > r2.y) := by
  rw [← checkCollision_eq_true_iff, Bool.eq_false_iff, Ne]

theorem collectItem_of_mem {s : GameStateS} {item : CollectibleItem}
    (h : item.id ∈ collectedIds s) : collectItem s item = s := by
  unfold collectItem
  rw [if_pos]
  rw [List.any_eq_true]
  obtain ⟨c, hc, hid⟩ := List.mem_map.mp h
  exact ⟨c, hc, beq_iff_eq.mpr hid⟩

theorem collectItem_of_not_mem {s : GameStateS} {item : CollectibleItem}
    (h : item.id ∉ collectedIds s) :
    collectItem s item =
      { s with
        collectedItems := s.collectedItems ++ [item]
        score := s.score + item.points
        currentMessage := some item.message } := by
  unfold collectItem
  rw [if_neg]
  intro hany
  obtain ⟨c, hc, hid⟩ := List.any_eq_true.mp hany
  exact h (List.mem_map.mpr ⟨c, hc, beq_iff_eq.mp hid⟩)

theorem mem_collectedIds_collectItem (s : GameStateS) (item : CollectibleItem) :
    item.id ∈ collectedIds (collectItem s item) := by
  by_cases h : item.id ∈ collectedIds s
  · rwa [collectItem_of_mem h]
  · rw [collectItem_of_not_mem h]
    simp [collectedIds]

theorem collectAll_score_ids (l : List CollectibleItem) : ∀ s : GameStateS,
    (l.map CollectibleItem.id).Nodup → (∀ i ∈ l, i.id ∉ collectedIds s) →
    (collectAll s l).score = s.score + (l.map CollectibleItem.points).sum ∧
    collectedIds (collectAll s l) = collectedIds s ++ l.map CollectibleItem.id := by
  induction l with
  | nil => intro s _ _; simp [collectAll]
  | cons c rest ih =>
    intro s hnd hfree
    have hcfree : c.id ∉ collectedIds s := hfree c (List.mem_cons_self c rest)
    have hstep := collectItem_of_not_mem hcfree
    have hids : collectedIds (collectItem s c) = collectedIds s ++ [c.id] := by
      rw [hstep]; simp [collectedIds]
    have hnd' : (rest.map CollectibleItem.id).Nodup := (List.nodup_cons.mp hnd).2
    have hhead : c.id ∉ rest.map CollectibleItem.id := (List.nodup_cons.mp hnd).1
    have hfree' : ∀ i ∈ rest, i.id ∉ collectedIds (collectItem s c) := by
      intro i hi
      rw [hids]
      intro hmem
      rcases List.mem_append.mp hmem with hold | hnew
      · exact hfree i (List.mem_cons_of_mem c hi) hold
      · have : i.id = c.id := List.mem_singleton.mp hnew
        exact hhead (this ▸ List.mem_map_of_mem CollectibleItem.id hi)
    have hrest := ih (collectItem s c) hnd' hfree'
    have hscore : (collectItem s c).score = s.score + c.points := by rw [hstep]
    constructor
    · show (collectAll (collectItem s c) rest).score = _
      rw [hrest.1, hscore]
      simp [add_assoc]
    · show collectedIds (collectAll (collectItem s c) rest) = _
      rw [hrest.2, hids]
      simp

theorem cameraStep_bounds (c t w : ℚ) (hw : w ≤ worldWidth) :
    0 ≤ cameraStep c t w ∧ cameraStep c t w ≤ worldWidth - w := by
  unfold cameraStep
  exact ⟨le_max_left 0 _, max_le (by linarith) (min_le_right _ _)⟩

theorem vyAfterTicks_closed (n : ℕ) : vyAfterTicks n = jumpPower + gravity * n := by
  induction n with
  | zero => simp [vyAfterTicks]
  | succ k ih =>
    rw [vyAfterTicks, Function.iterate_succ_apply', ← vyAfterTicks, ih, gravityTick]
    push_cast
    ring

/-! ## Claim theorems -/

/-- C2: calling restart from any phase resets the session to score 0, empty
collectedItems, phase ready, player at spawn, camera offset 0, and regenerates
the active collectible set from the level data; restarting again yields the
same state (idempotence). -/
theorem restart_resets_session (s : GameStateS × EngineState) :
    (restartSession s).1.score = 0 ∧
    (restartSession s).1.collectedItems = [] ∧
    (restartSession s).1.phase = GamePhase.ready ∧
    (restartSession s).1.playerPosition = (100, 400) ∧
    (restartSession s).1.cameraOffset = 0 ∧
    (restartSession s).1 = initialGameState ∧
    (restartSession s).2.player = spawnPlayer ∧
    (restartSession s).2.cameraX = 0 ∧
    (restartSession s).2.collectibles = levelCollectibles ∧
    restartSession (restartSession s) = restartSession s :=
  ⟨rfl, rfl, rfl, rfl, rfl, rfl, rfl, rfl, rfl, rfl⟩

/-- C3: a collectible id is appended to collectedItems at most once per
session: any number `n ≥ 1` of overlapping frames (each of which calls
`collectItem` once) produces the same state as a single pickup, and a pickup
of an already-collected id leaves the whole store state - score,
collectedItems and currentMessage included - unchanged. -/
theorem pickup_idempotent (s : GameStateS) (item : CollectibleItem) :
    (∀ n : ℕ, 1 ≤ n → (fun t => collectItem t item)^[n] s = collectItem s item) ∧
    (item.id ∈ collectedIds s → collectItem s item = s) := by
  constructor
  · intro n hn
    obtain ⟨m, rfl⟩ : ∃ m, n = m + 1 := ⟨n - 1, by omega⟩
    induction m with
    | zero => simp
    | succ k ihk =>
      rw [Function.iterate_succ_apply', ihk (by omega)]
      exact collectItem_of_mem (mem_collectedIds_collectItem s item)
  · exact collectItem_of_mem

/-- Witness for C3 at a concrete state and item: three overlapping frames act
like one, and re-collecting an already-collected id changes nothing. -/
theorem pickup_idempotent_witness :
    (fun t => collectItem t
        ⟨"gem", 0, 0, 20, 20, CollectibleType.skill, "t", "m", 7⟩)^[3] initialGameState =
      collectItem initialGameState
        ⟨"gem", 0, 0, 20, 20, CollectibleType.skill, "t", "m", 7⟩ ∧
    collectItem
        (collectItem initialGameState
          ⟨"gem", 0, 0, 20, 20, CollectibleType.skill, "t", "m", 7⟩)
        ⟨"gem", 0, 0, 20, 20, CollectibleType.skill, "t", "m", 7⟩ =
      collectItem initialGameState
        ⟨"gem", 0, 0, 20, 20, CollectibleType.skill, "t", "m", 7⟩ :=
  ⟨(pickup_idempotent initialGameState
      ⟨"gem", 0, 0, 20, 20, CollectibleType.skill, "t", "m", 7⟩).1 3 (by norm_num),
   (pickup_idempotent
      (collectItem initialGameState
        ⟨"gem", 0, 0, 20, 20, CollectibleType.skill, "t", "m", 7⟩)
      ⟨"gem", 0, 0, 20, 20, CollectibleType.skill, "t", "m", 7⟩).2
      (mem_collectedIds_collectItem initialGameState
        ⟨"gem", 0, 0, 20, 20, CollectibleType.skill, "t", "m", 7⟩)⟩

/-- C10: `update` is a guarded no-op outside the playing phase: whatever the
random draws, the engine state (player, camera, collectibles, particles) and
the store state (score, collectedItems, ...) are returned exactly unchanged. -/
theorem update_noop_outside_playing (o : Oracle) (e : EngineState) (g : GameStateS)
    (h : g.phase ≠ GamePhase.playing) : update o e g = (e, g) := by
  unfold update
  rw [if_neg h]

/-- Witness for C10: a concrete call in the ready phase returns the state
unchanged. -/
theorem update_noop_outside_playing_witness :
    update ⟨fun _ _ => [], fun _ _ => []⟩ (initEngine 800 600) initialGameState =
      (initEngine 800 600, initialGameState) :=
  update_noop_outside_playing ⟨fun _ _ => [], fun _ _ => []⟩ (initEngine 800 600)
    initialGameState (by decide)

/-- C4: after a sequence of N distinct pickups (ids pairwise distinct, none
already collected), the score equals the previous score plus the sum of the N
collectibles' point values, and any permutation of the pickup order yields the
same score. -/
theorem score_is_sum_of_points (s : GameStateS) (l l' : List CollectibleItem)
    (hnd : (l.map CollectibleItem.id).Nodup) (hperm : l.Perm l')
    (hfree : ∀ i ∈ l, i.id ∉ collectedIds s) :
    (collectAll s l).score = s.score + (l.map CollectibleItem.points).sum ∧
    (collectAll s l').score = (collectAll s l).score := by
  have h1 := (collectAll_score_ids l s hnd hfree).1
  have hnd' : (l'.map CollectibleItem.id).Nodup :=
    ((hperm.map CollectibleItem.id).nodup_iff).mp hnd
  have hfree' : ∀ i ∈ l', i.id ∉ collectedIds s :=
    fun i hi => hfree i (hperm.mem_iff.mpr hi)
  have h2 := (collectAll_score_ids l' s hnd' hfree').1
  have hsum : (l'.map CollectibleItem.points).sum = (l.map CollectibleItem.points).sum :=
    ((hperm.map CollectibleItem.points).sum_eq).symm
  exact ⟨h1, by rw [h1, h2, hsum]⟩

/-- Witness for C4: two concrete distinct pickups, in both orders, both
produce score 3 + 5 from the empty initial session. -/
theorem score_is_sum_of_points_witness :
    (collectAll initialGameState
        [⟨"a", 0, 0, 1, 1, CollectibleType.skill, "", "", 3⟩,
         ⟨"b", 0, 0, 1, 1, CollectibleType.hobby, "", "", 5⟩]).score =
      initialGameState.score + ([3, 5] : List ℕ).sum ∧
    (collectAll initialGameState
        [⟨"b", 0, 0, 1, 1, CollectibleType.hobby, "", "", 5⟩,
         ⟨"a", 0, 0, 1, 1, CollectibleType.skill, "", "", 3⟩]).score =
      (collectAll initialGameState
        [⟨"a", 0, 0, 1, 1, CollectibleType.skill, "", "", 3⟩,
         ⟨"b", 0, 0, 1, 1, CollectibleType.hobby, "", "", 5⟩]).score :=
  score_is_sum_of_points initialGameState
    [⟨"a", 0, 0, 1, 1, CollectibleType.skill, "", "", 3⟩,
     ⟨"b", 0, 0, 1, 1, CollectibleType.hobby, "", "", 5⟩]
    [⟨"b", 0, 0, 1, 1, CollectibleType.hobby, "", "", 5⟩,
     ⟨"a", 0, 0, 1, 1, CollectibleType.skill, "", "", 3⟩]
    (by decide) (by decide) (by decide)

/-- C7: while playing (and with the world at least as wide as the viewport),
the camera offset after a frame - first moved a tenth of the way toward the
target `player.x - viewportWidth/2`, then clamped - always lies in
`[0, worldWidth - viewportWidth]`. -/
theorem camera_offset_clamped (o : Oracle) (e : EngineState) (g : GameStateS)
    (hp : g.phase = GamePhase.playing) (hw : e.canvasWidth ≤ worldWidth) :
    0 ≤ (update o e g).1.cameraX ∧
    (update o e g).1.cameraX ≤ worldWidth - e.canvasWidth := by
  unfold update
  rw [if_pos hp]
  dsimp only
  exact cameraStep_bounds _ _ _ hw

/-- Witness for C7: a concrete playing frame keeps the camera inside
`[0, worldWidth - 800]`. -/
theorem camera_offset_clamped_witness :
    0 ≤ (update ⟨fun _ _ => [], fun _ _ => []⟩ (initEngine 800 600)
          (startGame initialGameState)).1.cameraX ∧
    (update ⟨fun _ _ => [], fun _ _ => []⟩ (initEngine 800 600)
          (startGame initialGameState)).1.cameraX ≤ worldWidth - (initEngine 800 600).canvasWidth :=
  camera_offset_clamped ⟨fun _ _ => [], fun _ _ => []⟩ (initEngine 800 600)
    (startGame initialGameState) (by decide) (by norm_num [initEngine, worldWidth])

/-- C9: after a grounded jump with impulse -15 under per-tick gravity 0.8
(each engine tick adds the gravity to the vertical velocity before
integration), the vertical velocity is negative on ticks 1 through 18 and is
first ≥ 0 on tick 19 = ⌈15/0.8⌉, in exact rational arithmetic; the last
conjunct ties the tick function to the embedded `integrate`. -/
theorem jump_sign_reversal_at_19 :
    (∀ n : ℕ, 1 ≤ n → n ≤ 18 → vyAfterTicks n < 0) ∧
    0 ≤ vyAfterTicks 19 ∧
    ⌈(15 : ℚ) / gravity⌉ = 19 ∧
    ∀ p : PlayerP, (integrate p).velocityY = gravityTick p.velocityY := by
  refine ⟨?_, ?_, ?_, fun p => rfl⟩
  · intro n _ h18
    rw [vyAfterTicks_closed, jumpPower, gravity]
    have hn : (n : ℚ) ≤ 18 := by exact_mod_cast h18
    have hmul : (8/10 : ℚ) * n ≤ (8/10) * 18 :=
      mul_le_mul_of_nonneg_left hn (by norm_num)
    linarith
  · rw [vyAfterTicks_closed, jumpPower, gravity]
    norm_num
  · rw [gravity, show (15 : ℚ) / (8/10) = 75/4 by norm_num]
    rw [Int.ceil_eq_iff]
    norm_num

/-- Witness for C9: tick 5 after the jump still has negative vertical
velocity. -/
theorem jump_sign_reversal_at_19_witness : vyAfterTicks 5 < 0 :=
  jump_sign_reversal_at_19.1 5 (by norm_num) (by norm_num)

/-- C5: for a platform overlapping the player, the resolution step classifies
the collision in this precedence: (1) falling with the top above the
platform's top snaps the bottom onto the platform, zeroes the vertical
velocity and grounds the player; (2) otherwise rising with the top below the
platform's top snaps the top to the platform's bottom and zeroes the vertical
velocity; (3) otherwise a nonzero horizontal velocity pushes the player out
along the movement axis and is zeroed; (4) side pushes fire only when neither
vertical rule applies, and with no horizontal velocity nothing happens. -/
theorem collision_precedence (p : PlayerP) (plat : Platform)
    (hc : checkCollision (playerRect p) (platformRect plat) = true) :
    (0 < p.velocityY ∧ p.y < plat.y →
      resolvePlatform p plat =
        { p with y := plat.y - p.height, velocityY := 0, onGround := true }) ∧
    (¬(0 < p.velocityY ∧ p.y < plat.y) → p.velocityY < 0 ∧ plat.y < p.y →
      resolvePlatform p plat = { p with y := plat.y + plat.height, velocityY := 0 }) ∧
    (¬(0 < p.velocityY ∧ p.y < plat.y) → ¬(p.velocityY < 0 ∧ plat.y < p.y) →
      p.velocityX ≠ 0 →
      resolvePlatform p plat =
        if 0 < p.velocityX then { p with x := plat.x - p.width, velocityX := 0 }
        else { p with x := plat.x + plat.width, velocityX := 0 }) ∧
    (¬(0 < p.velocityY ∧ p.y < plat.y) → ¬(p.velocityY < 0 ∧ plat.y < p.y) →
      p.velocityX = 0 → resolvePlatform p plat = p) := by
  unfold resolvePlatform
  simp only [hc, if_true]
  refine ⟨fun h1 => ?_, fun hn1 h2 => ?_, fun hn1 hn2 h3 => ?_, fun hn1 hn2 h3 => ?_⟩
  · rw [if_pos h1]
  · rw [if_neg hn1, if_pos h2]
  · rw [if_neg hn1, if_neg hn2, if_pos h3]
  · rw [if_neg hn1, if_neg hn2, if_neg (fun hne => hne h3)]

/-- Witness for C5: a falling player overlapping a platform from above is
snapped onto it, grounded, with zeroed vertical velocity. -/
theorem collision_precedence_witness :
    resolvePlatform
        ⟨10, 90, 32, 48, 0, 5, false, Dir.right⟩
        ⟨0, 100, 200, 20, PlatformType.platform⟩ =
      { (⟨10, 90, 32, 48, 0, 5, false, Dir.right⟩ : PlayerP) with
          y := (100 : ℚ) - 48, velocityY := 0, onGround := true } :=
  (collision_precedence ⟨10, 90, 32, 48, 0, 5, false, Dir.right⟩
      ⟨0, 100, 200, 20, PlatformType.platform⟩
      (by rw [checkCollision_eq_true_iff]; norm_num [playerRect, platformRect])).1
    (by norm_num)

/-- C6 (amended): whenever the player overlaps a platform and one of the three
resolution rules applies (falling with top above the platform top, rising with
top below it, or moving horizontally), the player resolved against that
platform no longer overlaps that platform. -/
theorem resolution_separates_when_rule_applies (p : PlayerP) (plat : Platform)
    (hc : checkCollision (playerRect p) (platformRect plat) = true)
    (hrule : (0 < p.velocityY ∧ p.y < plat.y) ∨ (p.velocityY < 0 ∧ plat.y < p.y) ∨
      p.velocityX ≠ 0) :
    checkCollision (playerRect (resolvePlatform p plat)) (platformRect plat) = false := by
  unfold resolvePlatform
  simp only [hc, if_true]
  split_ifs with h1 h2 h3 h4
  · rw [checkCollision_eq_false_iff]
    rintro ⟨-, -, -, h⟩
    simp only [playerRect, platformRect] at h
    linarith
  · rw [checkCollision_eq_false_iff]
    rintro ⟨-, -, h, -⟩
    simp only [playerRect, platformRect] at h
    linarith
  · rw [checkCollision_eq_false_iff]
    rintro ⟨-, h, -, -⟩
    simp only [playerRect, platformRect] at h
    linarith
  · rw [checkCollision_eq_false_iff]
    rintro ⟨h, -, -, -⟩
    simp only [playerRect, platformRect] at h
    linarith
  · rcases hrule with h | h | h
    · exact absurd h h1
    · exact absurd h h2
    · exact absurd h h3

/-- Witness for C6 (amended): a rightward-moving player overlapping a
platform's left edge is pushed out and no longer overlaps. -/
theorem resolution_separates_when_rule_applies_witness :
    checkCollision
        (playerRect (resolvePlatform
          ⟨-20, 95, 32, 48, 5, 0, false, Dir.right⟩
          ⟨0, 100, 200, 20, PlatformType.platform⟩))
        (platformRect ⟨0, 100, 200, 20, PlatformType.platform⟩) = false :=
  resolution_separates_when_rule_applies
    ⟨-20, 95, 32, 48, 5, 0, false, Dir.right⟩
    ⟨0, 100, 200, 20, PlatformType.platform⟩
    (by rw [checkCollision_eq_true_iff]; norm_num [playerRect, platformRect])
    (Or.inr (Or.inr (by norm_num)))

/-- C6 counterexample: a pre-resolution state overlapping a platform with
overlap depth 20 < 32 horizontally and 19 < 48 vertically (player falling,
`velocityY = 5 > 0`, but its top already below the platform's top, horizontal
velocity zero) is left overlapping by the resolution step: the claim as
stated is false. -/
theorem resolution_leaves_overlap_cex :
    checkCollision
        (playerRect ⟨180, 101, 32, 48, 0, 5, false, Dir.right⟩)
        (platformRect ⟨0, 100, 200, 20, PlatformType.platform⟩) = true ∧
    overlapDepthX (playerRect ⟨180, 101, 32, 48, 0, 5, false, Dir.right⟩)
        (platformRect ⟨0, 100, 200, 20, PlatformType.platform⟩) <
      (playerRect ⟨180, 101, 32, 48, 0, 5, false, Dir.right⟩).width ∧
    overlapDepthY (playerRect ⟨180, 101, 32, 48, 0, 5, false, Dir.right⟩)
        (platformRect ⟨0, 100, 200, 20, PlatformType.platform⟩) <
      (playerRect ⟨180, 101, 32, 48, 0, 5, false, Dir.right⟩).height ∧
    checkCollision
        (playerRect (resolveCollisions ⟨180, 101, 32, 48, 0, 5, false, Dir.right⟩
          [⟨0, 100, 200, 20, PlatformType.platform⟩]))
        (platformRect ⟨0, 100, 200, 20, PlatformType.platform⟩) = true := by
  refine ⟨?_, ?_, ?_, ?_⟩
  · rw [checkCollision_eq_true_iff]
    norm_num [playerRect, platformRect]
  · norm_num [overlapDepthX, playerRect, platformRect]
  · norm_num [overlapDepthY, playerRect, platformRect]
  · have hid : resolveCollisions ⟨180, 101, 32, 48, 0, 5, false, Dir.right⟩
        [⟨0, 100, 200, 20, PlatformType.platform⟩] =
        ⟨180, 101, 32, 48, 0, 5, false, Dir.right⟩ := by
      show resolvePlatform _ _ = _
      unfold resolvePlatform
      rw [if_pos, if_neg, if_neg, if_neg]
      · norm_num
      · norm_num
      · norm_num
      · rw [checkCollision_eq_true_iff]
        norm_num [playerRect, platformRect]
    rw [hid, checkCollision_eq_true_iff]
    norm_num [playerRect, platformRect]

/-- C8 (amended): touch semantics of `handleTouch` - the top half takes
precedence and attempts a jump, which fires only if grounded (the same
mutation as the keyboard jump) and otherwise leaves the player unchanged;
outside the top half, a touch in the left third sets the horizontal velocity
to `-speed` facing left and a touch in the right third sets it to `+speed`
facing right (the same mutations the held keyboard directions apply each
tick); any other touch is ignored. -/
theorem touch_semantics (x y w h : ℚ) (p : PlayerP) :
    (y < h / 2 → p.onGround = true →
      handleTouch x y w h p = { p with velocityY := jumpPower, onGround := false }) ∧
    (y < h / 2 → p.onGround = false → handleTouch x y w h p = p) ∧
    (¬(y < h / 2) → x < w / 3 →
      handleTouch x y w h p = { p with velocityX := -speed, direction := Dir.left }) ∧
    (¬(y < h / 2) → ¬(x < w / 3) → x > w * 2 / 3 →
      handleTouch x y w h p = { p with velocityX := speed, direction := Dir.right }) ∧
    (¬(y < h / 2) → ¬(x < w / 3) → ¬(x > w * 2 / 3) → handleTouch x y w h p = p) := by
  unfold handleTouch
  refine ⟨fun ht hg => ?_, fun ht hg => ?_, fun ht hl => ?_, fun ht hl hr => ?_,
    fun ht hl hr => ?_⟩
  · rw [if_pos ht, if_pos hg]
  · rw [if_pos ht, if_neg]
    rw [hg]
    exact Bool.false_ne_true
  · rw [if_neg ht, if_pos hl]
  · rw [if_neg ht, if_neg hl, if_pos hr]
  · rw [if_neg ht, if_neg hl, if_neg hr]

/-- Witness for C8 (amended): a touch in the bottom half and left third of a
300x200 canvas makes the spawned player move left. -/
theorem touch_semantics_witness :
    handleTouch 10 150 300 200 spawnPlayer =
      { spawnPlayer with velocityX := -speed, direction := Dir.left } :=
  (touch_semantics 10 150 300 200 spawnPlayer).2.2.1 (by norm_num) (by norm_num)

/-- C8 counterexample: the touch (10, 10) on a 300x200 canvas is in the left
third of the screen (10 < 300/3), yet it causes no leftward motion at all:
because it is also in the top half, `handleTouch` takes the jump branch, and
with the (spawned, airborne) player not grounded it changes nothing - the
claim that every left-third touch causes leftward motion is false. -/
theorem touch_left_third_no_motion_cex :
    ((10 : ℚ) < 300 / 3) ∧
    handleTouch 10 10 300 200 spawnPlayer = spawnPlayer ∧
    (handleTouch 10 10 300 200 spawnPlayer).velocityX = 0 := by
  have h : handleTouch 10 10 300 200 spawnPlayer = spawnPlayer := by
    unfold handleTouch
    rw [if_pos, if_neg]
    · simp [spawnPlayer]
    · norm_num
  exact ⟨by norm_num, h, by rw [h]; rfl⟩

/-- C1 (amended): the level has exactly 12 collectibles with pairwise distinct
ids; once the player has overlapped every collectible while playing (one
`collectItem` per first overlap), `collectedItems` has length 12 - but no win
fires: the code's win condition is overlap with a castle platform at
`x > 2800`, the level has no such platform, so the win step never changes the
store and the phase stays `playing`. -/
theorem collect_all_twelve_no_end :
    (levelCollectibles.map CollectibleItem.id).Nodup ∧
    levelCollectibles.length = 12 ∧
    (∀ (pl : PlayerP) (g : GameStateS), winStep levelPlatforms pl g = g) ∧
    (collectAll (startGame initialGameState) levelCollectibles).collectedItems.length = 12 ∧
    (collectAll (startGame initialGameState) levelCollectibles).phase =
      GamePhase.playing := by
  refine ⟨by decide, by decide, fun pl g => ?_, by decide, by decide⟩
  unfold winStep
  rw [show findFinalCastle levelPlatforms = none from by decide]

/-- C1 counterexample: in the concrete session that starts the game and picks
up all 12 collectibles (each first overlap calling `collectItem`),
`collectedItems` reaches length 12 yet the phase is still `playing`, and the
subsequent win check (searching the level for a castle at `x > 2800`) finds
nothing, so the `ended` transition never happens - contradicting the claim
that the win condition fires once all 12 are collected. -/
theorem collect_all_twelve_phase_stays_playing :
    (collectAll (startGame initialGameState) levelCollectibles).collectedItems.length = 12 ∧
    (collectAll (startGame initialGameState) levelCollectibles).phase =
      GamePhase.playing ∧
    findFinalCastle levelPlatforms = none ∧
    winStep levelPlatforms spawnPlayer
        (collectAll (startGame initialGameState) levelCollectibles) =
      collectAll (startGame initialGameState) levelCollectibles := by
  refine ⟨by decide, by decide, by decide, ?_⟩
  unfold winStep
  rw [show findFinalCastle levelPlatforms = none from by decide]

end Platformer
